import Mathlib

/-!
Shallow embedding of the purchasing-record dashboard
(src/Streamlit_app_neu/app2.py): the einkaeufe table data model, the CSV
upload pipeline with its three modes (append, insert-new-only, upsert), the
analysis aggregation, and the manual-entry form handler.

Conventions: SQLite TEXT columns are Option String (none = NULL / pandas
NaN), REAL columns Option Rat, INTEGER columns Option Int.  The
AUTOINCREMENT id counter and the CURRENT_TIMESTAMP clock are carried
explicitly in the store state.
-/

namespace Einkauf

/-- A stored row of the einkaeufe table (CREATE TABLE einkaeufe: id INTEGER
PRIMARY KEY AUTOINCREMENT, Material TEXT, Materialkurztext TEXT, Werk TEXT,
Kostenstelle TEXT, Kostenstellenbez TEXT, Menge REAL, Einzelpreis REAL,
Warengruppe TEXT, Jahr INTEGER, Monat INTEGER, Lieferant TEXT, Timestamp
DATETIME DEFAULT CURRENT_TIMESTAMP). -/
structure DbRow where
  id : Nat
  Material : Option String
  Materialkurztext : Option String
  Werk : Option String
  Kostenstelle : Option String
  Kostenstellenbez : Option String
  Menge : Option Rat
  Einzelpreis : Option Rat
  Warengruppe : Option String
  Jahr : Option Int
  Monat : Option Int
  Lieferant : Option String
  Timestamp : Nat
deriving DecidableEq, Repr

/-- The store: the table contents in natural return order (SELECT * FROM
einkaeufe), the AUTOINCREMENT counter, and the clock value used for
CURRENT_TIMESTAMP defaults. -/
structure Db where
  rows : List DbRow
  nextId : Nat
  now : Nat
deriving DecidableEq, Repr

/-- An uploaded CSV row after the column rename, pd.to_numeric with
errors=coerce, and before the astype cast of Jahr and Monat to the
nullable integer dtype: every numeric cell holds its parsed value or none
for NaN (unparseable or missing); Jahr and Monat are still raw numerics,
a non-integral value among them makes the later cast raise. -/
structure RawUploadRow where
  Material : Option String
  Materialkurztext : Option String
  Werk : Option String
  Kostenstelle : Option String
  Kostenstellenbez : Option String
  Menge : Option Rat
  Einzelpreis : Option Rat
  Warengruppe : Option String
  Jahr : Option Rat
  Monat : Option Rat
  Lieferant : Option String
deriving DecidableEq, Repr

/-- An uploaded CSV row after the column rename, the numeric coercion and
the successful astype cast of Jahr and Monat to nullable integers: a
numeric cell that failed to parse, or a missing cell, is none (NaN/NA);
the batch reaches this form only when no Jahr or Monat cell was a
non-integral numeric (the cast raises then and aborts the batch). -/
structure UploadRow where
  Material : Option String
  Materialkurztext : Option String
  Werk : Option String
  Kostenstelle : Option String
  Kostenstellenbez : Option String
  Menge : Option Rat
  Einzelpreis : Option Rat
  Warengruppe : Option String
  Jahr : Option Int
  Monat : Option Int
  Lieferant : Option String
deriving DecidableEq, Repr

/-- pandas astype(str) on an object (string) column of the uploaded frame:
a NaN cell renders as the three-letter string nan, a present string stays
itself. -/
def astypeStr : Option String → String
  | none => "nan"
  | some s => s

/-- pandas astype(str) on an object column read back from the store by
read_sql: a SQL NULL comes back as the Python value None, which astype
renders as the four-letter string None; a present string stays itself. -/
def astypeStrDb : Option String → String
  | none => "None"
  | some s => s

/-- pandas astype(str) on the uploaded, Int64-cast Jahr and Monat columns:
a present integer renders as its decimal numeral; a missing cell renders
as the NA marker (such cells are dropped before any merge key is
computed, so that case is unreachable in the pipeline). -/
def astypeIntStr : Option Int → String
  | none => "<NA>"
  | some i => toString i

/-- pandas astype(str) on a stored Jahr or Monat column entry as read back
by read_sql: when the column contains no NULL it arrives as int64 and a
value renders as its plain numeral; when the column contains a NULL
anywhere it arrives as float64 instead, so a present value renders with a
trailing .0 and a NULL cell renders as nan.  The colHasNull flag carries
this column-level dtype effect into the per-row rendering. -/
def astypeIntStrDb (colHasNull : Bool) : Option Int → String
  | none => "nan"
  | some i => if colHasNull then toString i ++ ".0" else toString i

/-- fillna applied AFTER astype(str): the column already holds strings and
no NaN remains, so the call changes nothing (it is the identity).  This is
why a missing key attribute contributes nan and not the empty string. -/
def fillnaEmpty (s : String) : String := s

/-- The astype(str) images of the four key columns of an uploaded row, in
the fixed order Material, Kostenstelle, Jahr, Monat (key_cols). -/
def UploadRow.keyStrings (r : UploadRow) : List String :=
  [astypeStr r.Material, astypeStr r.Kostenstelle,
   astypeIntStr r.Jahr, astypeIntStr r.Monat]

/-- merge_key of an uploaded row: the astype(str) key fields, fillna
applied (a no-op), joined with the underscore separator. -/
def UploadRow.mergeKey (r : UploadRow) : String :=
  String.intercalate "_" (r.keyStrings.map fillnaEmpty)

/-- Whether the stored Jahr column contains a NULL: pandas then reads the
whole column back as float64 rather than int64. -/
def Db.jahrHasNull (db : Db) : Bool :=
  db.rows.any (fun d => d.Jahr.isNone)

/-- Whether the stored Monat column contains a NULL. -/
def Db.monatHasNull (db : Db) : Bool :=
  db.rows.any (fun d => d.Monat.isNone)

/-- The astype(str) images of the four key columns of a stored row as read
back by read_sql, in the fixed order Material, Kostenstelle, Jahr, Monat
(key_cols), given the two column-level nullability flags. -/
def DbRow.keyStrings (jn mn : Bool) (d : DbRow) : List String :=
  [astypeStrDb d.Material, astypeStrDb d.Kostenstelle,
   astypeIntStrDb jn d.Jahr, astypeIntStrDb mn d.Monat]

/-- merge_key of a stored row under the given column nullability flags,
joined exactly like the uploaded one. -/
def DbRow.mergeKey (jn mn : Bool) (d : DbRow) : String :=
  String.intercalate "_" ((DbRow.keyStrings jn mn d).map fillnaEmpty)

/-- dropna on the coerced columns Menge, Einzelpreis, Jahr, Monat: a row
survives iff all four coercions produced a value. -/
def UploadRow.surviving (r : UploadRow) : Bool :=
  r.Menge.isSome && r.Einzelpreis.isSome && r.Jahr.isSome && r.Monat.isSome

/-- The rows of an uploaded batch that survive numeric coercion. -/
def cleanRows (rows : List UploadRow) : List UploadRow :=
  rows.filter UploadRow.surviving

/-- astype(pd.Int64Dtype()) applied to one cell of a to_numeric result:
NaN becomes NA, an integral value is cast to its integer, and a numeric
but non-integral value makes the cast raise (pandas refuses the unsafe
float-to-int cast), which aborts the whole batch. -/
def castInt64Cell : Option Rat → Except Unit (Option Int)
  | none => .ok none
  | some q => if q.den = 1 then .ok (some q.num) else .error ()

/-- A raw uploaded row with its Jahr and Monat columns replaced by their
successfully cast integer forms. -/
def RawUploadRow.coerced (r : RawUploadRow) (j m : Option Int) : UploadRow where
  Material := r.Material
  Materialkurztext := r.Materialkurztext
  Werk := r.Werk
  Kostenstelle := r.Kostenstelle
  Kostenstellenbez := r.Kostenstellenbez
  Menge := r.Menge
  Einzelpreis := r.Einzelpreis
  Warengruppe := r.Warengruppe
  Jahr := j
  Monat := m
  Lieferant := r.Lieferant

/-- The Jahr and Monat casts of one raw row; an error on either cell makes
the whole batch raise. -/
def coerceRow (r : RawUploadRow) : Except Unit UploadRow :=
  match castInt64Cell r.Jahr, castInt64Cell r.Monat with
  | .ok j, .ok m => .ok (r.coerced j m)
  | _, _ => .error ()

/-- The astype casts of Jahr and Monat over the whole batch.  pandas casts
column-wise (all of Jahr, then all of Monat) while this folds row-wise,
but the outcome is the same: an error exactly when some row holds a
numeric non-integral Jahr or Monat, the cast frame otherwise. -/
def coerceBatch : List RawUploadRow → Except Unit (List UploadRow)
  | [] => .ok []
  | r :: rs =>
    match coerceRow r, coerceBatch rs with
    | .ok u, .ok us => .ok (u :: us)
    | _, _ => .error ()

/-- The stored row created for one uploaded row: the data columns come
from the row, id from AUTOINCREMENT, Timestamp from CURRENT_TIMESTAMP. -/
def UploadRow.toDbRow (r : UploadRow) (newId tnow : Nat) : DbRow where
  id := newId
  Material := r.Material
  Materialkurztext := r.Materialkurztext
  Werk := r.Werk
  Kostenstelle := r.Kostenstelle
  Kostenstellenbez := r.Kostenstellenbez
  Menge := r.Menge
  Einzelpreis := r.Einzelpreis
  Warengruppe := r.Warengruppe
  Jahr := r.Jahr
  Monat := r.Monat
  Lieferant := r.Lieferant
  Timestamp := tnow

/-- INSERT of one uploaded row (to_sql if_exists=append). -/
def insertUploadRow (db : Db) (r : UploadRow) : Db where
  rows := db.rows ++ [r.toDbRow db.nextId db.now]
  nextId := db.nextId + 1
  now := db.now

/-- The stored rows a list of uploaded rows becomes when appended starting
from the given AUTOINCREMENT value and clock. -/
def insertedRows (nid tnow : Nat) : List UploadRow → List DbRow
  | [] => []
  | r :: rs => r.toDbRow nid tnow :: insertedRows (nid + 1) tnow rs

/-- SQL equality against a bound TEXT parameter: a NULL on either side
(NaN cells are bound as NULL) makes the comparison not-true. -/
def sqlEqStr : Option String → Option String → Bool
  | some a, some b => a == b
  | _, _ => false

/-- SQL equality against a bound INTEGER parameter, NULL matching nothing. -/
def sqlEqInt : Option Int → Option Int → Bool
  | some a, some b => a == b
  | _, _ => false

/-- The WHERE clause of the UPDATE statement: Material = ? AND
Kostenstelle = ? AND Jahr = ? AND Monat = ?, on raw values. -/
def sqlKeyMatch (d : DbRow) (r : UploadRow) : Bool :=
  sqlEqStr d.Material r.Material && sqlEqStr d.Kostenstelle r.Kostenstelle &&
    sqlEqInt d.Jahr r.Jahr && sqlEqInt d.Monat r.Monat

/-- The SET list of the UPDATE statement: the seven non-key data columns
of a stored row overwritten from the uploaded row; id, Timestamp and the
four key columns are untouched. -/
def overwriteNonKey (r : UploadRow) (d : DbRow) : DbRow where
  id := d.id
  Material := d.Material
  Materialkurztext := r.Materialkurztext
  Werk := r.Werk
  Kostenstelle := d.Kostenstelle
  Kostenstellenbez := r.Kostenstellenbez
  Menge := r.Menge
  Einzelpreis := r.Einzelpreis
  Warengruppe := r.Warengruppe
  Jahr := d.Jahr
  Monat := d.Monat
  Lieferant := r.Lieferant
  Timestamp := d.Timestamp

/-- Row-wise effect of one UPDATE einkaeufe SET ... WHERE key statement: a
stored row whose raw key matches gets the non-key columns overwritten. -/
def updRow (r : UploadRow) (d : DbRow) : DbRow :=
  if sqlKeyMatch d r then overwriteNonKey r d else d

/-- One UPDATE statement applied to the store: it overwrites EVERY stored
row whose raw key equals the incoming row key (SQL UPDATE has no LIMIT). -/
def applyUpdate (db : Db) (r : UploadRow) : Db :=
  { db with rows := db.rows.map (updRow r) }

/-- The merge_key column computed over the current store (db_data) as read
back by read_sql: the Jahr and Monat renderings depend on whether those
columns contain a NULL anywhere. -/
def dbKeys (db : Db) : List String :=
  db.rows.map (DbRow.mergeKey db.jahrHasNull db.monatHasNull)

/-- df_to_update: surviving uploaded rows whose merge_key is present among
the store keys (isin). -/
def matchedRows (rows : List UploadRow) (db : Db) : List UploadRow :=
  (cleanRows rows).filter (fun r => (dbKeys db).contains r.mergeKey)

/-- df_to_insert / df_filtered: surviving uploaded rows whose merge_key is
absent from the store keys. -/
def freshRows (rows : List UploadRow) (db : Db) : List UploadRow :=
  (cleanRows rows).filter (fun r => !((dbKeys db).contains r.mergeKey))

/-- The rename alias table applied to uploaded column names. -/
def renameCol (c : String) : String :=
  if c = "Menge Ausw.-Zr" then "Menge"
  else if c = "Wert Ausw.-Zr" then "Wert"
  else if c = "Name Regellieferant" then "Lieferant"
  else if c = "Kostenstellenbez." then "Kostenstellenbez"
  else c

/-- required_cols_upload: the canonical attribute set an uploaded batch
must contain after renaming. -/
def requiredColsUpload : List String :=
  ["Material", "Materialkurztext", "Werk", "Kostenstelle",
   "Kostenstellenbez", "Menge", "Einzelpreis",
   "Warengruppe", "Jahr", "Monat", "Lieferant"]

/-- The columns of the einkaeufe table. -/
def tableCols : List String :=
  ["id", "Material", "Materialkurztext", "Werk", "Kostenstelle",
   "Kostenstellenbez", "Menge", "Einzelpreis", "Warengruppe",
   "Jahr", "Monat", "Lieferant", "Timestamp"]

/-- to_sql if_exists=append succeeds iff every dataframe column beyond the
canonical attribute set is also a column of the einkaeufe table; an extra
column such as Wert makes sqlite3 raise (table einkaeufe has no column
named Wert).  An extra column that IS a table column (such as id) is
modelled as insertable; supplying id values that collide with existing
rows would still fail, but no claim here exercises that corner. -/
def insertOk (extraCols : List String) : Bool :=
  extraCols.all (fun c => tableCols.contains c)

/-- The three upload modes offered by the radio selector. -/
inductive UploadMode
  | APPEND_ALL
  | INSERT_NEW_ONLY
  | UPSERT
deriving DecidableEq, Repr

/-- Outcome of processing one uploaded batch: the missing-columns error,
the empty-after-cleaning notice (st.stop, a no-op), a success with the
reported inserted and updated counts and the resulting store, or a caught
exception (the sqlite3 connection context manager rolls the transaction
back, so the store is unchanged). -/
inductive UploadOutcome
  | missingCols (missing : List String)
  | emptyBatch
  | ok (inserted updated : Nat) (db : Db)
  | opError (db : Db)
deriving DecidableEq, Repr

/-- The upload pipeline from the coercion step on: dropna, the empty-batch
stop, then the selected mode.  extraCols are the dataframe columns beyond
the canonical attribute set (merge_key is dropped before any insert and is
not among them). -/
def runUpload (mode : UploadMode) (extraCols : List String)
    (rows : List UploadRow) (db : Db) : UploadOutcome :=
  let clean := cleanRows rows
  if clean.isEmpty then .emptyBatch
  else
    match mode with
    | .APPEND_ALL =>
        if insertOk extraCols then
          .ok clean.length 0 (clean.foldl insertUploadRow db)
        else .opError db
    | .INSERT_NEW_ONLY =>
        let fresh := freshRows rows db
        if fresh.isEmpty then .ok 0 0 db
        else if insertOk extraCols then
          .ok fresh.length 0 (fresh.foldl insertUploadRow db)
        else .opError db
    | .UPSERT =>
        let toUpd := matchedRows rows db
        let toIns := freshRows rows db
        let db1 := toUpd.foldl applyUpdate db
        if toIns.isEmpty then .ok 0 toUpd.length db1
        else if insertOk extraCols then
          .ok toIns.length toUpd.length (toIns.foldl insertUploadRow db1)
        else .opError db

/-- The full upload pipeline: rename the columns through the alias table,
fail the whole batch when a required column is missing, otherwise run the
selected mode with the leftover non-canonical columns still attached. -/
def processUpload (mode : UploadMode) (cols : List String)
    (rows : List UploadRow) (db : Db) : UploadOutcome :=
  let renamed := cols.map renameCol
  let missing := requiredColsUpload.filter (fun c => !(renamed.contains c))
  if !missing.isEmpty then .missingCols missing
  else runUpload mode (renamed.filter (fun c => !(requiredColsUpload.contains c))) rows db

/-- The pipeline from the raw parsed frame: rename and check the columns
(the missing-column check precedes coercion, as in the code), run the
Jahr/Monat casts — a raise there is caught by the except handler as an
operation error with nothing written — then hand the cast rows to the
selected mode. -/
def fullUpload (mode : UploadMode) (cols : List String)
    (raws : List RawUploadRow) (db : Db) : UploadOutcome :=
  let renamed := cols.map renameCol
  let missing := requiredColsUpload.filter (fun c => !(renamed.contains c))
  if !missing.isEmpty then .missingCols missing
  else
    match coerceBatch raws with
    | .error _ => .opError db
    | .ok rows =>
        runUpload mode
          (renamed.filter (fun c => !(requiredColsUpload.contains c))) rows db

/-- Whether the selected mode reaches a to_sql insert call on this batch:
append always inserts the cleaned rows, the two keyed modes insert their
fresh rows only when some exist. -/
def modeAttemptsInsert (mode : UploadMode) (rows : List UploadRow) (db : Db) : Bool :=
  match mode with
  | .APPEND_ALL => !(cleanRows rows).isEmpty
  | .INSERT_NEW_ONLY => !(freshRows rows db).isEmpty
  | .UPSERT => !(freshRows rows db).isEmpty

/-- Einzelpreis times Menge with pandas NaN propagation: a NaN factor makes
the product NaN, and Series.sum skips NaN terms. -/
def rowCost (d : DbRow) : Rat :=
  match d.Einzelpreis, d.Menge with
  | some p, some m => p * m
  | _, _ => 0

/-- Gesamtkosten: sum of Einzelpreis times Menge over the filtered rows. -/
def gesamt (rows : List DbRow) : Rat :=
  (rows.map rowCost).sum

/-- Sum of Menge over the filtered rows (NaN skipped by Series.sum). -/
def mengeSum (rows : List DbRow) : Rat :=
  (rows.map (fun d => d.Menge.getD 0)).sum

/-- Average unit price as computed on the Analyse page: gesamt divided by
the Menge sum when that sum is strictly positive, else 0. -/
def avgPreis (rows : List DbRow) : Rat :=
  if 0 < mengeSum rows then gesamt rows / mengeSum rows else 0

/-- isin filter for one categorical column: an empty selection list leaves
the mask unconstrained; a NaN cell is in no selection list. -/
def inSelection (sel : List String) (v : Option String) : Bool :=
  sel.isEmpty ||
    (match v with
     | some s => sel.contains s
     | none => false)

/-- The three multiselect filters of the Analyse page, combined by AND. -/
def applyFilters (ks wg lf : List String) (rows : List DbRow) : List DbRow :=
  rows.filter (fun d =>
    inSelection ks d.Kostenstellenbez && inSelection wg d.Warengruppe &&
      inSelection lf d.Lieferant)

/-- The fields of the manual-entry form (einkauf_form); Jahr and Monat come
from the date picker and are always present. -/
structure FormInput where
  material : String
  materialkurz : String
  werk : String
  kostenstelle : String
  kostenbez : String
  warengruppe : String
  lieferant : String
  menge : Rat
  einzelpreis : Rat
  jahr : Int
  monat : Int
deriving DecidableEq, Repr

/-- Result of a form submission: one of the two validation warnings (no
write happens), or the saved store. -/
inductive FormResult
  | textWarning
  | numberWarning
  | saved (db : Db)
deriving DecidableEq, Repr

/-- The truthiness check not all([material, ...]): every text field must be
a non-empty string. -/
def FormInput.allTextFilled (f : FormInput) : Bool :=
  !(f.material == "") && !(f.materialkurz == "") && !(f.werk == "") &&
    !(f.kostenstelle == "") && !(f.kostenbez == "") &&
    !(f.warengruppe == "") && !(f.lieferant == "")

/-- The stored row created by the INSERT INTO einkaeufe statement of the
form handler: every data column bound from the form, id and Timestamp from
their defaults. -/
def FormInput.toDbRow (f : FormInput) (newId tnow : Nat) : DbRow where
  id := newId
  Material := some f.material
  Materialkurztext := some f.materialkurz
  Werk := some f.werk
  Kostenstelle := some f.kostenstelle
  Kostenstellenbez := some f.kostenbez
  Menge := some f.menge
  Einzelpreis := some f.einzelpreis
  Warengruppe := some f.warengruppe
  Jahr := some f.jahr
  Monat := some f.monat
  Lieferant := some f.lieferant
  Timestamp := tnow

/-- The INSERT INTO einkaeufe statement of the form handler. -/
def insertFormRow (f : FormInput) (db : Db) : Db where
  rows := db.rows ++ [f.toDbRow db.nextId db.now]
  nextId := db.nextId + 1
  now := db.now

/-- The submit handler of einkauf_form: text-field check first, then the
positivity check on Menge and Einzelpreis, then the insert. -/
def submitForm (f : FormInput) (db : Db) : FormResult :=
  if !f.allTextFilled then .textWarning
  else if f.menge ≤ 0 || f.einzelpreis ≤ 0 then .numberWarning
  else .saved (insertFormRow f db)

/-- The column headers of the downloadable example template
(example_data), before renaming. -/
def exampleCsvCols : List String :=
  ["Material", "Materialkurztext", "Werk", "Kostenstelle",
   "Kostenstellenbez.", "Menge Ausw.-Zr", "Wert Ausw.-Zr", "Einzelpreis",
   "Warengruppe", "Jahr", "Monat", "Name Regellieferant"]

/-- The example template row as parsed back from the downloaded CSV, after
renaming and coercion (Menge 10, Einzelpreis 2.50, Jahr 2025, Monat 5). -/
def exampleRow : UploadRow :=
  { Material := some "12345678", Materialkurztext := some "Tupfer steril",
    Werk := some "ROMS", Kostenstelle := some "100010",
    Kostenstellenbez := some "Station 3A", Menge := some 10,
    Einzelpreis := some (5 / 2), Warengruppe := some "Hygienebedarf",
    Jahr := some 2025, Monat := some 5, Lieferant := some "Hartmann" }

/-- A freshly initialised empty store. -/
def emptyDb : Db :=
  { rows := [], nextId := 1, now := 0 }

/-- The reported (inserted, updated) pair of a successful upload. -/
def UploadOutcome.counts : UploadOutcome → Option (Nat × Nat)
  | .ok i u _ => some (i, u)
  | _ => none

/-- The store contents an upload outcome leaves behind (unchanged contents
for the non-writing outcomes). -/
def UploadOutcome.dbRows (db0 : Db) : UploadOutcome → List DbRow
  | .ok _ _ db => db.rows
  | .opError db => db.rows
  | _ => db0.rows

/-- The store an upload outcome leaves behind (the starting store for the
non-writing outcomes). -/
def UploadOutcome.dbAfter (db0 : Db) : UploadOutcome → Db
  | .ok _ _ db => db
  | .opError db => db
  | _ => db0

/-- A sample stored row with the given id, business key, quantity, price
and creation timestamp. -/
def mkStoredRow (i : Nat) (mat ko : String) (jr mo : Int)
    (menge preis : Rat) (t : Nat) : DbRow where
  id := i
  Material := some mat
  Materialkurztext := some "alt"
  Werk := some "W"
  Kostenstelle := some ko
  Kostenstellenbez := some "KB"
  Menge := some menge
  Einzelpreis := some preis
  Warengruppe := some "WG"
  Jahr := some jr
  Monat := some mo
  Lieferant := some "L"
  Timestamp := t

/-- A sample uploaded row with the given business key, quantity and price,
all coercions succeeded. -/
def mkUploadRow (mat ko : String) (jr mo : Int) (menge preis : Rat) : UploadRow where
  Material := some mat
  Materialkurztext := some "neu"
  Werk := some "W2"
  Kostenstelle := some ko
  Kostenstellenbez := some "KB2"
  Menge := some menge
  Einzelpreis := some preis
  Warengruppe := some "WG2"
  Jahr := some jr
  Monat := some mo
  Lieferant := some "L2"

/-- A store holding two rows that share the business key A1, C1, 2025, 1
(the key is not unique at the storage layer), with prices 3 and 4. -/
def c1Db : Db :=
  { rows := [mkStoredRow 1 "A1" "C1" 2025 1 1 3 0,
             mkStoredRow 2 "A1" "C1" 2025 1 1 4 0],
    nextId := 3, now := 5 }

/-- An uploaded row carrying that same key with price 9. -/
def c1Upload : UploadRow := mkUploadRow "A1" "C1" 2025 1 2 9

/-- An uploaded row whose Material cell is missing (NaN). -/
def c3NanRow : UploadRow :=
  { mkUploadRow "x" "C1" 2025 1 1 1 with Material := none }

/-- A stored row whose Material column is NULL. -/
def c3DbNanRow : DbRow :=
  { mkStoredRow 1 "x" "C1" 2025 1 1 1 0 with Material := none }

/-- A one-row store whose Material is NULL (Jahr and Monat NULL-free). -/
def c3DbNan : Db :=
  { rows := [c3DbNanRow], nextId := 2, now := 0 }

/-- An uploaded row whose Menge cell failed numeric coercion. -/
def c4BadRow : UploadRow :=
  { mkUploadRow "B7" "C9" 2024 2 1 1 with Menge := none }

/-- A sample raw uploaded row (pre-cast), with the same constant non-key
fields as mkUploadRow. -/
def mkRawRow (mat ko : String) (jr mo : Rat) (menge preis : Rat) : RawUploadRow where
  Material := some mat
  Materialkurztext := some "neu"
  Werk := some "W2"
  Kostenstelle := some ko
  Kostenstellenbez := some "KB2"
  Menge := some menge
  Einzelpreis := some preis
  Warengruppe := some "WG2"
  Jahr := some jr
  Monat := some mo
  Lieferant := some "L2"

/-- The rational one half, built structurally (no arithmetic) so that
kernel evaluation of the cast stays direct: a Jahr cell holding it is
numeric but not integral. -/
def halfRat : Rat := ⟨1, 2, by decide, Nat.coprime_one_left 2⟩

/-- A raw row that coerces cleanly: integral Jahr 2025 and Monat 1. -/
def c4GoodRaw : RawUploadRow := mkRawRow "G1" "C4" 2025 1 1 2

/-- The cast image of c4GoodRaw. -/
def c4GoodRow : UploadRow := mkUploadRow "G1" "C4" 2025 1 1 2

/-- A raw row whose Menge failed to_numeric (dropped later by dropna). -/
def c4BadRaw : RawUploadRow :=
  { mkRawRow "B7" "C9" 2024 2 1 1 with Menge := none }

/-- A raw row whose Jahr cell is the non-integral numeric one half: the
Int64 cast raises on it and aborts the whole batch. -/
def c4FracRaw : RawUploadRow :=
  { mkRawRow "F1" "C5" 2025 1 1 1 with Jahr := some halfRat }

/-- A stored row with key A1, C1, 2025, 1, id 7, timestamp 42, price 3. -/
def c6Stored : DbRow := mkStoredRow 7 "A1" "C1" 2025 1 1 3 42

/-- An uploaded row with the same key and the different price 4. -/
def c6Upload : UploadRow := mkUploadRow "A1" "C1" 2025 1 1 4

/-- A stored row with quantity -1 and price 2 (negative quantities pass
the upload coercion untouched; only the manual form rejects them). -/
def c7NegRow : DbRow := mkStoredRow 1 "A1" "C1" 2025 1 (-1) 2 0

/-- A stored row with quantity 2 and price 3. -/
def c7PosRow : DbRow := mkStoredRow 1 "A1" "C1" 2025 1 2 3 0

/-- A manual-entry form with every text field filled but quantity 0. -/
def badForm : FormInput where
  material := "M"
  materialkurz := "MK"
  werk := "W"
  kostenstelle := "K"
  kostenbez := "KB"
  warengruppe := "WG"
  lieferant := "L"
  menge := 0
  einzelpreis := 1
  jahr := 2025
  monat := 1

/-- A manual-entry form passing every validation check. -/
def goodForm : FormInput :=
  { badForm with menge := 2 }

/-- A store already holding a row with the example template business key
12345678, 100010, 2025, 5. -/
def c9Db : Db :=
  { rows := [mkStoredRow 1 "12345678" "100010" 2025 5 1 1 0],
    nextId := 2, now := 9 }

/-- Two uploaded rows sharing the fresh business key D2, C3, 2024, 7 with
different prices. -/
def c10RowA : UploadRow := mkUploadRow "D2" "C3" 2024 7 1 5
def c10RowB : UploadRow := mkUploadRow "D2" "C3" 2024 7 1 6

/-! Helper lemmas about the embedded operations. -/

theorem isEmpty_false_of_ne_nil {α : Type} {l : List α} (h : l ≠ []) :
    l.isEmpty = false := by
  cases l with
  | nil => exact absurd rfl h
  | cons a l => rfl

theorem length_filter_partition {α : Type} (p : α → Bool) (l : List α) :
    (l.filter p).length + (l.filter (fun a => !(p a))).length = l.length := by
  induction l with
  | nil => rfl
  | cons a l ih =>
    cases h : p a <;> simp [List.filter_cons, h] <;> omega

theorem surviving_fields (r : UploadRow) (hs : r.surviving = true) :
    r.Menge.isSome = true ∧ r.Einzelpreis.isSome = true
      ∧ r.Jahr.isSome = true ∧ r.Monat.isSome = true := by
  simpa [UploadRow.surviving, Bool.and_eq_true, and_assoc] using hs

theorem foldl_insert_spec (rs : List UploadRow) (db : Db) :
    (rs.foldl insertUploadRow db).rows
        = db.rows ++ insertedRows db.nextId db.now rs
      ∧ (rs.foldl insertUploadRow db).nextId = db.nextId + rs.length
      ∧ (rs.foldl insertUploadRow db).now = db.now := by
  induction rs generalizing db with
  | nil => simp [insertedRows]
  | cons r rs ih =>
    obtain ⟨ha, hb, hc⟩ := ih (insertUploadRow db r)
    refine ⟨?_, ?_, ?_⟩
    · simp only [List.foldl_cons]
      rw [ha]
      simp [insertUploadRow, insertedRows]
    · simp only [List.foldl_cons]
      rw [hb]
      simp [insertUploadRow]
      omega
    · simp only [List.foldl_cons]
      rw [hc]
      simp [insertUploadRow]

theorem insertedRows_length (rs : List UploadRow) (nid tnow : Nat) :
    (insertedRows nid tnow rs).length = rs.length := by
  induction rs generalizing nid with
  | nil => rfl
  | cons r rs ih => simp [insertedRows, ih]

theorem toDbRow_mergeKey (r : UploadRow) (n t : Nat)
    (hm : r.Material.isSome = true) (hk : r.Kostenstelle.isSome = true)
    (hs : r.surviving = true) :
    DbRow.mergeKey false false (r.toDbRow n t) = r.mergeKey := by
  obtain ⟨m, hm2⟩ := Option.isSome_iff_exists.mp hm
  obtain ⟨k, hk2⟩ := Option.isSome_iff_exists.mp hk
  obtain ⟨j, hj2⟩ := Option.isSome_iff_exists.mp (surviving_fields r hs).2.2.1
  obtain ⟨mo, hmo2⟩ := Option.isSome_iff_exists.mp (surviving_fields r hs).2.2.2
  simp [DbRow.mergeKey, UploadRow.mergeKey, DbRow.keyStrings,
    UploadRow.keyStrings, UploadRow.toDbRow, astypeStr, astypeStrDb,
    astypeIntStr, astypeIntStrDb, hm2, hk2, hj2, hmo2]

theorem insertedRows_mergeKey (rs : List UploadRow) (nid tnow : Nat)
    (hp : ∀ r ∈ rs, r.Material.isSome = true ∧ r.Kostenstelle.isSome = true)
    (hs : ∀ r ∈ rs, r.surviving = true) :
    (insertedRows nid tnow rs).map (DbRow.mergeKey false false)
      = rs.map UploadRow.mergeKey := by
  induction rs generalizing nid with
  | nil => rfl
  | cons r rs ih =>
    have hp1 := hp r (List.mem_cons_self r rs)
    have hs1 := hs r (List.mem_cons_self r rs)
    simp only [insertedRows, List.map_cons]
    rw [toDbRow_mergeKey r nid tnow hp1.1 hp1.2 hs1,
      ih (nid + 1) (fun x hx => hp x (List.mem_cons_of_mem r hx))
        (fun x hx => hs x (List.mem_cons_of_mem r hx))]

theorem insertedRows_no_null (rs : List UploadRow) (nid tnow : Nat)
    (hs : ∀ r ∈ rs, r.surviving = true) :
    ∀ d ∈ insertedRows nid tnow rs,
      d.Jahr.isNone = false ∧ d.Monat.isNone = false := by
  induction rs generalizing nid with
  | nil =>
    intro d hd
    simp [insertedRows] at hd
  | cons r rs ih =>
    intro d hd
    simp only [insertedRows, List.mem_cons] at hd
    rcases hd with hd | hd
    · subst hd
      obtain ⟨j, hj⟩ := Option.isSome_iff_exists.mp
        (surviving_fields r (hs r (List.mem_cons_self r rs))).2.2.1
      obtain ⟨mo, hmo⟩ := Option.isSome_iff_exists.mp
        (surviving_fields r (hs r (List.mem_cons_self r rs))).2.2.2
      simp [UploadRow.toDbRow, hj, hmo]
    · exact ih (nid + 1) (fun x hx => hs x (List.mem_cons_of_mem r hx)) d hd

theorem flags_foldl_insert (rs : List UploadRow) (db : Db)
    (hs : ∀ r ∈ rs, r.surviving = true)
    (hjn : db.jahrHasNull = false) (hmn : db.monatHasNull = false) :
    (rs.foldl insertUploadRow db).jahrHasNull = false
      ∧ (rs.foldl insertUploadRow db).monatHasNull = false := by
  have hrows := (foldl_insert_spec rs db).1
  have hins := insertedRows_no_null rs db.nextId db.now hs
  constructor
  · simp only [Db.jahrHasNull, hrows, List.any_append, Bool.or_eq_false_iff]
    refine ⟨by simpa [Db.jahrHasNull] using hjn, ?_⟩
    cases hca : (insertedRows db.nextId db.now rs).any (fun d => d.Jahr.isNone) with
    | false => rfl
    | true =>
      obtain ⟨d, hd, hp⟩ := List.any_eq_true.mp hca
      exact absurd hp (by simp [(hins d hd).1])
  · simp only [Db.monatHasNull, hrows, List.any_append, Bool.or_eq_false_iff]
    refine ⟨by simpa [Db.monatHasNull] using hmn, ?_⟩
    cases hca : (insertedRows db.nextId db.now rs).any (fun d => d.Monat.isNone) with
    | false => rfl
    | true =>
      obtain ⟨d, hd, hp⟩ := List.any_eq_true.mp hca
      exact absurd hp (by simp [(hins d hd).2])

theorem rows_foldl_insert (rs : List UploadRow) (db : Db) :
    ∃ post, (rs.foldl insertUploadRow db).rows = db.rows ++ post
      ∧ post.length = rs.length :=
  ⟨insertedRows db.nextId db.now rs, (foldl_insert_spec rs db).1,
    insertedRows_length rs db.nextId db.now⟩

theorem length_foldl_insert (rs : List UploadRow) (db : Db) :
    (rs.foldl insertUploadRow db).rows.length = db.rows.length + rs.length := by
  obtain ⟨post, h1, h2⟩ := rows_foldl_insert rs db
  simp [h1, h2]

theorem dbKeys_foldl_insert (rs : List UploadRow) (db : Db)
    (hjn : db.jahrHasNull = false) (hmn : db.monatHasNull = false)
    (hs : ∀ r ∈ rs, r.surviving = true)
    (hp : ∀ r ∈ rs, r.Material.isSome = true ∧ r.Kostenstelle.isSome = true) :
    dbKeys (rs.foldl insertUploadRow db)
      = dbKeys db ++ rs.map UploadRow.mergeKey := by
  obtain ⟨hf1, hf2⟩ := flags_foldl_insert rs db hs hjn hmn
  have hrows := (foldl_insert_spec rs db).1
  simp only [dbKeys, hf1, hf2, hrows, List.map_append]
  rw [hjn, hmn, insertedRows_mergeKey rs db.nextId db.now hp hs]

theorem fullUpload_coerced (mode : UploadMode) (cols : List String)
    (raws : List RawUploadRow) (rows : List UploadRow) (db : Db)
    (hco : coerceBatch raws = .ok rows) :
    fullUpload mode cols raws db = processUpload mode cols rows db := by
  simp only [fullUpload, processUpload]
  rw [hco]

theorem rows_foldl_update (us : List UploadRow) (db : Db) :
    (us.foldl applyUpdate db).rows
      = db.rows.map (fun d => us.foldl (fun d r => updRow r d) d) := by
  induction us generalizing db with
  | nil => simp
  | cons u us ih =>
    simp only [List.foldl_cons]
    rw [ih]
    simp only [applyUpdate, List.map_map]
    rfl

/-! Claim theorems. -/

/-- C2: re-importing the downloaded example template under APPEND_ALL does
not succeed: after renaming, the template still carries the Wert column,
which is not a column of the einkaeufe table, so the to_sql append raises
and the batch is reported as an operation error with no row inserted. -/
theorem example_roundtrip_fails :
    processUpload .APPEND_ALL exampleCsvCols [exampleRow] emptyDb
      = .opError emptyDb := by decide

theorem append_all_core (rows : List UploadRow) (db : Db)
    (h : cleanRows rows ≠ []) :
    ∃ db2, runUpload .APPEND_ALL [] rows db
        = .ok (cleanRows rows).length 0 db2
      ∧ db2.rows.length = db.rows.length + (cleanRows rows).length := by
  refine ⟨(cleanRows rows).foldl insertUploadRow db, ?_, length_foldl_insert _ _⟩
  simp [runUpload, isEmpty_false_of_ne_nil h, insertOk]

/-- C4 counterexample: a two-row batch whose second row carries the
numeric but non-integral fiscal year one half is aborted as a whole by the
Int64 cast (operation error, nothing inserted), while the same batch
without that row inserts its surviving row — the non-integral row is not
simply dropped as the claim asserts, so inserted does not equal the
number of surviving rows there. -/
theorem append_all_frac_jahr_counterexample :
    fullUpload .APPEND_ALL requiredColsUpload [c4GoodRaw, c4FracRaw] emptyDb
        = .opError emptyDb
    ∧ (fullUpload .APPEND_ALL requiredColsUpload [c4GoodRaw] emptyDb).counts
        = some (1, 0) := by decide

/-- C4 amended: for every uploaded batch with the canonical column set
whose fiscal-year and fiscal-month cells all pass the Int64 cast (a
numeric non-integral value instead aborts the whole batch with an
operation error), the reported inserted count under APPEND_ALL equals the
number of rows surviving coercion — rows with unparseable numeric cells
having been dropped — and the store row count grows by exactly that
number. -/
theorem append_all_counts (raws : List RawUploadRow) (rows : List UploadRow)
    (db : Db) (hco : coerceBatch raws = .ok rows)
    (h : cleanRows rows ≠ []) :
    ∃ db2, fullUpload .APPEND_ALL requiredColsUpload raws db
        = .ok (cleanRows rows).length 0 db2
      ∧ db2.rows.length = db.rows.length + (cleanRows rows).length := by
  rw [fullUpload_coerced .APPEND_ALL requiredColsUpload raws rows db hco]
  have hmap : requiredColsUpload.map renameCol = requiredColsUpload := by decide
  have hmiss : requiredColsUpload.filter
      (fun c => !(requiredColsUpload.contains c)) = [] := by decide
  have hextra : requiredColsUpload.filter
      (fun c => !(requiredColsUpload.contains c)) = [] := by decide
  simp only [processUpload, hmap, hmiss, hextra]
  simpa using append_all_core rows db h

/-- Witness for the amended C4 at a raw batch with one cleanly coerced row
and one row whose Menge failed to parse (dropped). -/
theorem append_all_counts_witness :
    ∃ db2, fullUpload .APPEND_ALL requiredColsUpload [c4GoodRaw, c4BadRaw] emptyDb
        = .ok (cleanRows [c4GoodRow, c4BadRow]).length 0 db2
      ∧ db2.rows.length
          = emptyDb.rows.length + (cleanRows [c4GoodRow, c4BadRow]).length :=
  append_all_counts [c4GoodRaw, c4BadRaw] [c4GoodRow, c4BadRow] emptyDb
    rfl (by decide)

/-- C5 counterexample: a surviving row with a missing material code keys
as nan under the upload but its stored copy reads back as NULL and keys as
None, so the second INSERT_NEW_ONLY run does not find it and inserts it
again — both runs report one inserted row, refuting idempotence for every
batch. -/
theorem insert_new_only_reinserts_nan_row :
    (runUpload .INSERT_NEW_ONLY [] [c3NanRow] emptyDb).counts = some (1, 0)
    ∧ (runUpload .INSERT_NEW_ONLY [] [c3NanRow]
        ((runUpload .INSERT_NEW_ONLY [] [c3NanRow] emptyDb).dbAfter emptyDb)).counts
      = some (1, 0) := by decide

/-- C5 amended: INSERT_NEW_ONLY is idempotent for batches whose surviving
rows carry their material and cost-center codes, against a store whose
Jahr and Monat columns are NULL-free (stored copies then read back with
the same merge key): the first run inserts the rows whose keys are new,
and a second run of the same batch against the resulting store inserts
zero rows and leaves the store unchanged. -/
theorem insert_new_only_idempotent (rows : List UploadRow) (db : Db)
    (h : cleanRows rows ≠ [])
    (hpres : ∀ r ∈ cleanRows rows,
      r.Material.isSome = true ∧ r.Kostenstelle.isSome = true)
    (hjn : db.jahrHasNull = false) (hmn : db.monatHasNull = false) :
    ∃ n db1, runUpload .INSERT_NEW_ONLY [] rows db = .ok n 0 db1
      ∧ runUpload .INSERT_NEW_ONLY [] rows db1 = .ok 0 0 db1 := by
  have hne := isEmpty_false_of_ne_nil h
  by_cases hf : freshRows rows db = []
  · refine ⟨0, db, ?_, ?_⟩ <;>
      simp [runUpload, hne, hf, List.isEmpty_nil]
  · have hsub : ∀ r ∈ freshRows rows db, r ∈ cleanRows rows := by
      intro r hr
      exact (List.mem_filter.mp hr).1
    have hsurv : ∀ r ∈ freshRows rows db, r.surviving = true := by
      intro r hr
      exact (List.mem_filter.mp (hsub r hr)).2
    have hkeys := dbKeys_foldl_insert (freshRows rows db) db hjn hmn hsurv
      (fun r hr => hpres r (hsub r hr))
    refine ⟨(freshRows rows db).length,
      (freshRows rows db).foldl insertUploadRow db, ?_, ?_⟩
    · simp [runUpload, hne, isEmpty_false_of_ne_nil hf, insertOk]
    · have hall : ∀ r ∈ cleanRows rows,
          r.mergeKey ∈ dbKeys ((freshRows rows db).foldl insertUploadRow db) := by
        intro r hr
        rw [hkeys]
        rcases hc : (dbKeys db).contains r.mergeKey with _ | _
        · refine List.mem_append.mpr (Or.inr ?_)
          exact List.mem_map_of_mem _ (List.mem_filter.mpr ⟨hr, by simpa using hc⟩)
        · exact List.mem_append.mpr (Or.inl (by simpa using hc))
      have hf2 : freshRows rows ((freshRows rows db).foldl insertUploadRow db)
          = [] := by
        apply List.filter_eq_nil_iff.mpr
        intro r hr
        simpa using hall r hr
      simp [runUpload, hne, hf2, List.isEmpty_nil]

/-- Witness for the amended C5 at the example template row against the
empty store. -/
theorem insert_new_only_idempotent_witness :
    ∃ n db1, runUpload .INSERT_NEW_ONLY [] [exampleRow] emptyDb = .ok n 0 db1
      ∧ runUpload .INSERT_NEW_ONLY [] [exampleRow] db1 = .ok 0 0 db1 :=
  insert_new_only_idempotent [exampleRow] emptyDb (by decide) (by decide)
    (by decide) (by decide)

/-- C1 counterexample: with two stored rows sharing the business key, the
single matching incoming row reports updated=1 and inserted=0, but its
UPDATE statement overwrites BOTH stored rows (prices 3 and 4 both become
9), so it is not the case that exactly one existing row, the first in
natural return order, is updated. -/
theorem upsert_updates_all_not_just_first :
    (runUpload .UPSERT [] [c1Upload] c1Db).counts = some (0, 1)
    ∧ ((runUpload .UPSERT [] [c1Upload] c1Db).dbRows c1Db).map DbRow.Einzelpreis
        = [some 9, some 9]
    ∧ c1Db.rows.map DbRow.Einzelpreis = [some 3, some 4] := by decide

/-- C1 amended: under UPSERT, every incoming row whose merge key matches
the store counts once as updated and its UPDATE overwrites every stored
row whose raw key equals the incoming key (not only the first); matched
rows are never additionally inserted (the store grows only by the fresh
rows, appended after the updated originals), and inserted plus updated
equals the number of rows surviving coercion. -/
theorem upsert_counts_and_updates (rows : List UploadRow) (db : Db)
    (h : cleanRows rows ≠ []) :
    ∃ db2 post,
      runUpload .UPSERT [] rows db
          = .ok (freshRows rows db).length (matchedRows rows db).length db2
        ∧ (matchedRows rows db).length + (freshRows rows db).length
            = (cleanRows rows).length
        ∧ db2.rows = db.rows.map
            (fun d => (matchedRows rows db).foldl (fun d r => updRow r d) d)
            ++ post
        ∧ post.length = (freshRows rows db).length := by
  have hne := isEmpty_false_of_ne_nil h
  have hcount : (matchedRows rows db).length + (freshRows rows db).length
      = (cleanRows rows).length := by
    have hpart := length_filter_partition
      (fun r : UploadRow => (dbKeys db).contains r.mergeKey) (cleanRows rows)
    simpa [matchedRows, freshRows] using hpart
  by_cases hf : freshRows rows db = []
  · refine ⟨(matchedRows rows db).foldl applyUpdate db, [], ?_, hcount, ?_,
      by simp [hf]⟩
    · simp [runUpload, hne, hf, List.isEmpty_nil]
    · simp [rows_foldl_update]
  · obtain ⟨post, hp1, hp2⟩ := rows_foldl_insert (freshRows rows db)
      ((matchedRows rows db).foldl applyUpdate db)
    refine ⟨(freshRows rows db).foldl insertUploadRow
        ((matchedRows rows db).foldl applyUpdate db), post, ?_, hcount, ?_, hp2⟩
    · simp [runUpload, hne, isEmpty_false_of_ne_nil hf, insertOk]
    · rw [hp1, rows_foldl_update]

/-- Witness for the amended C1 at the duplicate-key store. -/
theorem upsert_counts_and_updates_witness :
    ∃ db2 post,
      runUpload .UPSERT [] [c1Upload] c1Db
          = .ok (freshRows [c1Upload] c1Db).length
              (matchedRows [c1Upload] c1Db).length db2
        ∧ (matchedRows [c1Upload] c1Db).length
            + (freshRows [c1Upload] c1Db).length
            = (cleanRows [c1Upload]).length
        ∧ db2.rows = c1Db.rows.map
            (fun d => (matchedRows [c1Upload] c1Db).foldl
              (fun d r => updRow r d) d)
            ++ post
        ∧ post.length = (freshRows [c1Upload] c1Db).length :=
  upsert_counts_and_updates [c1Upload] c1Db (by decide)

/-- C6: when the store holds exactly one row and it carries the business
key of the incoming row (all four key attributes present and equal),
UPSERT reports updated=1 and inserted=0, the non-key columns of the stored
row (including the unit price) now come from the batch row, and its id and
creation timestamp are unchanged. -/
theorem upsert_single_match_frame (d : DbRow) (r : UploadRow) (mat ko : String)
    (jr mo : Int) (nid tnow : Nat)
    (hdm : d.Material = some mat) (hrm : r.Material = some mat)
    (hdk : d.Kostenstelle = some ko) (hrk : r.Kostenstelle = some ko)
    (hdj : d.Jahr = some jr) (hrj : r.Jahr = some jr)
    (hdmo : d.Monat = some mo) (hrmo : r.Monat = some mo)
    (hme : r.Menge.isSome = true) (hep : r.Einzelpreis.isSome = true) :
    runUpload .UPSERT [] [r] { rows := [d], nextId := nid, now := tnow }
        = .ok 0 1 { rows := [overwriteNonKey r d], nextId := nid, now := tnow }
      ∧ (overwriteNonKey r d).id = d.id
      ∧ (overwriteNonKey r d).Timestamp = d.Timestamp
      ∧ (overwriteNonKey r d).Einzelpreis = r.Einzelpreis := by
  have hsurv : r.surviving = true := by
    simp [UploadRow.surviving, hrj, hrmo, hme, hep]
  have hkey : DbRow.mergeKey false false d = r.mergeKey := by
    simp [DbRow.mergeKey, UploadRow.mergeKey, DbRow.keyStrings,
      UploadRow.keyStrings, astypeStr, astypeStrDb, astypeIntStr,
      astypeIntStrDb, hdm, hrm, hdk, hrk, hdj, hrj, hdmo, hrmo]
  have hmatch : sqlKeyMatch d r = true := by
    simp [sqlKeyMatch, sqlEqStr, sqlEqInt, hdm, hrm, hdk, hrk, hdj, hrj,
      hdmo, hrmo]
  refine ⟨?_, rfl, rfl, rfl⟩
  simp [runUpload, cleanRows, matchedRows, freshRows, dbKeys,
    Db.jahrHasNull, Db.monatHasNull, hdj, hdmo, hsurv, hkey,
    applyUpdate, updRow, hmatch]

/-- Witness for C6 at the concrete single-row store. -/
theorem upsert_single_match_frame_witness :
    runUpload .UPSERT [] [c6Upload] { rows := [c6Stored], nextId := 8, now := 99 }
        = .ok 0 1 { rows := [overwriteNonKey c6Upload c6Stored], nextId := 8, now := 99 }
      ∧ (overwriteNonKey c6Upload c6Stored).id = c6Stored.id
      ∧ (overwriteNonKey c6Upload c6Stored).Timestamp = c6Stored.Timestamp
      ∧ (overwriteNonKey c6Upload c6Stored).Einzelpreis = c6Upload.Einzelpreis :=
  upsert_single_match_frame c6Stored c6Upload "A1" "C1" 2025 1 8 99
    rfl rfl rfl rfl rfl rfl rfl rfl rfl rfl

/-- C10: under INSERT_NEW_ONLY, duplicate detection is only against the
existing store: two batch rows sharing a business key (equal raw key
attributes) that is absent from the store are BOTH inserted, in input
order, creating two stored rows with the same merge key. -/
theorem insert_new_only_keeps_batch_dups (r1 r2 : UploadRow) (db : Db)
    (h1 : r1.surviving = true) (h2 : r2.surviving = true)
    (hmat : r1.Material = r2.Material) (hko : r1.Kostenstelle = r2.Kostenstelle)
    (hjr : r1.Jahr = r2.Jahr) (hmo : r1.Monat = r2.Monat)
    (hnew : (dbKeys db).contains r1.mergeKey = false) :
    ∃ db2 k, runUpload .INSERT_NEW_ONLY [] [r1, r2] db = .ok 2 0 db2
      ∧ db2.rows = db.rows
          ++ [r1.toDbRow db.nextId db.now, r2.toDbRow (db.nextId + 1) db.now]
      ∧ dbKeys db2 = dbKeys db ++ [k, k] := by
  have hk : r2.mergeKey = r1.mergeKey := by
    simp [UploadRow.mergeKey, UploadRow.keyStrings, hmat, hko, hjr, hmo]
  have hclean : cleanRows [r1, r2] = [r1, r2] := by simp [cleanRows, h1, h2]
  have hnew2 : (dbKeys db).contains r2.mergeKey = false := by
    rw [hk]; exact hnew
  have hfr : freshRows [r1, r2] db = [r1, r2] := by
    simp only [freshRows, hclean]
    simp
    exact ⟨by simpa using hnew, by simpa using hnew2⟩
  obtain ⟨hrows, hnid, hnow⟩ := foldl_insert_spec [r1, r2] db
  have hins : insertedRows db.nextId db.now [r1, r2]
      = [r1.toDbRow db.nextId db.now, r2.toDbRow (db.nextId + 1) db.now] := rfl
  obtain ⟨j1, hj1⟩ := Option.isSome_iff_exists.mp (surviving_fields r1 h1).2.2.1
  obtain ⟨m1, hm1⟩ := Option.isSome_iff_exists.mp (surviving_fields r1 h1).2.2.2
  obtain ⟨j2, hj2⟩ := Option.isSome_iff_exists.mp (surviving_fields r2 h2).2.2.1
  obtain ⟨m2, hm2⟩ := Option.isSome_iff_exists.mp (surviving_fields r2 h2).2.2.2
  have hfj : ([r1, r2].foldl insertUploadRow db).jahrHasNull = db.jahrHasNull := by
    simp only [Db.jahrHasNull]
    rw [hrows, hins]
    simp [List.any_append, UploadRow.toDbRow, hj1, hj2]
  have hfm : ([r1, r2].foldl insertUploadRow db).monatHasNull
      = db.monatHasNull := by
    simp only [Db.monatHasNull]
    rw [hrows, hins]
    simp [List.any_append, UploadRow.toDbRow, hm1, hm2]
  refine ⟨[r1, r2].foldl insertUploadRow db,
    DbRow.mergeKey db.jahrHasNull db.monatHasNull (r1.toDbRow db.nextId db.now),
    ?_, by rw [hrows, hins], ?_⟩
  · have hne : (cleanRows [r1, r2]).isEmpty = false := by rw [hclean]; rfl
    simp [runUpload, hne, hfr, insertOk]
  · have hsame : DbRow.mergeKey db.jahrHasNull db.monatHasNull
        (r2.toDbRow (db.nextId + 1) db.now)
        = DbRow.mergeKey db.jahrHasNull db.monatHasNull
            (r1.toDbRow db.nextId db.now) := by
      simp [DbRow.mergeKey, DbRow.keyStrings, UploadRow.toDbRow,
        hmat, hko, hjr, hmo]
    simp only [dbKeys]
    rw [hfj, hfm, hrows, hins]
    simp only [List.map_append, List.map_cons, List.map_nil]
    rw [hsame]

/-- Witness for C10 at two concrete duplicate-key rows against the empty
store. -/
theorem insert_new_only_keeps_batch_dups_witness :
    ∃ db2 k, runUpload .INSERT_NEW_ONLY [] [c10RowA, c10RowB] emptyDb = .ok 2 0 db2
      ∧ db2.rows = emptyDb.rows
          ++ [c10RowA.toDbRow emptyDb.nextId emptyDb.now,
              c10RowB.toDbRow (emptyDb.nextId + 1) emptyDb.now]
      ∧ dbKeys db2 = dbKeys emptyDb ++ [k, k] :=
  insert_new_only_keeps_batch_dups c10RowA c10RowB emptyDb
    (by decide) (by decide) rfl rfl rfl rfl (by decide)

theorem intercalate_four (a b c d : String) :
    String.intercalate "_" [a, b, c, d] = a ++ "_" ++ b ++ "_" ++ c ++ "_" ++ d := by
  show String.intercalate.go a "_" [b, c, d] = _
  rw [String.intercalate.go, String.intercalate.go, String.intercalate.go,
    String.intercalate.go]

/-- C3 counterexample: a surviving uploaded row whose material code is
missing gets the merge key nan_C1_2025_1, and a stored row whose material
column is NULL reads back as None and gets the merge key None_C1_2025_1 —
neither is the key _C1_2025_1 that an empty-string contribution would
produce. -/
theorem merge_key_nan_counterexample :
    c3NanRow.surviving = true
    ∧ UploadRow.mergeKey c3NanRow = "nan_C1_2025_1"
    ∧ dbKeys c3DbNan = ["None_C1_2025_1"]
    ∧ UploadRow.mergeKey c3NanRow ≠ "_C1_2025_1"
    ∧ dbKeys c3DbNan ≠ ["_C1_2025_1"] := by decide

/-- C3 amended: the composite key of every row is the underscore join of
the astype(str) images of material code, cost-center code, fiscal year and
fiscal month, and fillna, running only after astype(str), is a no-op; a
missing key attribute therefore never contributes the empty string: on the
uploaded frame a missing string attribute renders nan, on the frame read
back from the store a NULL renders None, and a stored fiscal-year or month
column containing any NULL is read back as float64, so its present values
render with a trailing .0 and its NULLs as nan. -/
theorem merge_key_formula :
    (∀ r : UploadRow, r.mergeKey
        = astypeStr r.Material ++ "_" ++ astypeStr r.Kostenstelle ++ "_"
          ++ astypeIntStr r.Jahr ++ "_" ++ astypeIntStr r.Monat)
    ∧ (∀ (jn mn : Bool) (d : DbRow), DbRow.mergeKey jn mn d
        = astypeStrDb d.Material ++ "_" ++ astypeStrDb d.Kostenstelle ++ "_"
          ++ astypeIntStrDb jn d.Jahr ++ "_" ++ astypeIntStrDb mn d.Monat)
    ∧ (∀ db : Db, dbKeys db
        = db.rows.map (DbRow.mergeKey db.jahrHasNull db.monatHasNull))
    ∧ astypeStr none = "nan" ∧ astypeStrDb none = "None"
    ∧ astypeIntStrDb true none = "nan"
    ∧ (∀ i : Int, astypeIntStrDb true (some i) = toString i ++ ".0")
    ∧ (∀ i : Int, astypeIntStrDb false (some i) = toString i) := by
  refine ⟨fun r => ?_, fun jn mn d => ?_, fun db => rfl, rfl, rfl, rfl,
    fun i => rfl, fun i => rfl⟩
  · simp [UploadRow.mergeKey, UploadRow.keyStrings, fillnaEmpty,
      intercalate_four]
  · simp [DbRow.mergeKey, DbRow.keyStrings, fillnaEmpty, intercalate_four]

/-- C7 counterexample: one stored row with quantity -1 and price 2 under
no filters has total cost -2 and quantity sum -1; the claimed formula
gives average 2, but the page computes 0 because its guard is sum > 0. -/
theorem avg_preis_negative_counterexample :
    mengeSum (applyFilters [] [] [] [c7NegRow]) = -1
    ∧ gesamt (applyFilters [] [] [] [c7NegRow])
        / mengeSum (applyFilters [] [] [] [c7NegRow]) = 2
    ∧ avgPreis (applyFilters [] [] [] [c7NegRow]) = 0
    ∧ (2 : Rat) ≠ 0 := by
  have hfil : applyFilters [] [] [] [c7NegRow] = [c7NegRow] := rfl
  have hm : mengeSum [c7NegRow] = -1 := by
    simp [mengeSum, c7NegRow, mkStoredRow]
  have hg : gesamt [c7NegRow] = -2 := by
    norm_num [gesamt, rowCost, c7NegRow, mkStoredRow]
  refine ⟨?_, ?_, ?_, by norm_num⟩
  · rw [hfil]
    exact hm
  · rw [hfil, hm, hg]
    norm_num
  · rw [hfil]
    have hneg : ¬ (0 : Rat) < -1 := by norm_num
    simp [avgPreis, hm, hneg]

/-- C7 amended: for every record set and filter selection the average unit
price equals total cost divided by the quantity sum whenever that sum is
strictly positive, and is 0 whenever the sum is not positive (in
particular when it is 0); no division is attempted in that case. -/
theorem avg_preis_spec (rows : List DbRow) (ks wg lf : List String) :
    (0 < mengeSum (applyFilters ks wg lf rows) →
      avgPreis (applyFilters ks wg lf rows)
        = gesamt (applyFilters ks wg lf rows)
          / mengeSum (applyFilters ks wg lf rows))
    ∧ (mengeSum (applyFilters ks wg lf rows) ≤ 0 →
      avgPreis (applyFilters ks wg lf rows) = 0) := by
  constructor
  · intro h
    simp [avgPreis, h]
  · intro h
    simp [avgPreis, not_lt.mpr h]

/-- Witness for the amended C7 at a one-row record set with positive
quantity. -/
theorem avg_preis_spec_witness :
    0 < mengeSum (applyFilters [] [] [] [c7PosRow])
    ∧ avgPreis (applyFilters [] [] [] [c7PosRow])
        = gesamt (applyFilters [] [] [] [c7PosRow])
          / mengeSum (applyFilters [] [] [] [c7PosRow]) := by
  have hpos : 0 < mengeSum (applyFilters [] [] [] [c7PosRow]) := by
    norm_num [applyFilters, inSelection, mengeSum, c7PosRow, mkStoredRow]
  exact ⟨hpos, (avg_preis_spec [c7PosRow] [] [] []).1 hpos⟩

/-- C8: the manual-entry submit handler rejects a record with any empty
text field, or with quantity or unit price not strictly positive, with a
validation warning and no write; a record passing all checks is saved as
exactly one new stored row. -/
theorem form_validation (f : FormInput) (db : Db) :
    ((f.material = "" ∨ f.materialkurz = "" ∨ f.werk = "" ∨ f.kostenstelle = ""
        ∨ f.kostenbez = "" ∨ f.warengruppe = "" ∨ f.lieferant = ""
        ∨ f.menge ≤ 0 ∨ f.einzelpreis ≤ 0) →
      (submitForm f db = .textWarning ∨ submitForm f db = .numberWarning))
    ∧ ((f.material ≠ "" ∧ f.materialkurz ≠ "" ∧ f.werk ≠ ""
        ∧ f.kostenstelle ≠ "" ∧ f.kostenbez ≠ "" ∧ f.warengruppe ≠ ""
        ∧ f.lieferant ≠ "" ∧ 0 < f.menge ∧ 0 < f.einzelpreis) →
      (submitForm f db = .saved (insertFormRow f db)
        ∧ (insertFormRow f db).rows.length = db.rows.length + 1)) := by
  constructor
  · intro h
    by_cases ht : f.allTextFilled = true
    · right
      have hnum : f.menge ≤ 0 ∨ f.einzelpreis ≤ 0 := by
        rcases h with h|h|h|h|h|h|h|h|h
        · exact absurd ht (by simp [FormInput.allTextFilled, h])
        · exact absurd ht (by simp [FormInput.allTextFilled, h])
        · exact absurd ht (by simp [FormInput.allTextFilled, h])
        · exact absurd ht (by simp [FormInput.allTextFilled, h])
        · exact absurd ht (by simp [FormInput.allTextFilled, h])
        · exact absurd ht (by simp [FormInput.allTextFilled, h])
        · exact absurd ht (by simp [FormInput.allTextFilled, h])
        · exact Or.inl h
        · exact Or.inr h
      have hb : (decide (f.menge ≤ 0) || decide (f.einzelpreis ≤ 0)) = true := by
        rcases hnum with h|h <;> simp [h]
      simp [submitForm, ht, hb]
    · left
      have ht2 : f.allTextFilled = false := by
        cases hx : f.allTextFilled
        · rfl
        · exact absurd hx ht
      simp [submitForm, ht2]
  · rintro ⟨h1, h2, h3, h4, h5, h6, h7, h8, h9⟩
    have ht : f.allTextFilled = true := by
      simp [FormInput.allTextFilled, h1, h2, h3, h4, h5, h6, h7]
    have hb : (decide (f.menge ≤ 0) || decide (f.einzelpreis ≤ 0)) = false := by
      simp [not_le.mpr h8, not_le.mpr h9]
    refine ⟨?_, by simp [insertFormRow]⟩
    simp [submitForm, ht, hb]

/-- Witness for C8: the quantity-0 form is rejected with a warning, and
the same form with quantity 2 is saved as one new row. -/
theorem form_validation_witness :
    (submitForm badForm emptyDb = .textWarning
      ∨ submitForm badForm emptyDb = .numberWarning)
    ∧ (submitForm goodForm emptyDb = .saved (insertFormRow goodForm emptyDb)
        ∧ (insertFormRow goodForm emptyDb).rows.length
            = emptyDb.rows.length + 1) :=
  ⟨(form_validation badForm emptyDb).1 (by decide),
   (form_validation goodForm emptyDb).2 (by decide)⟩

/-- C9 counterexample: a batch carrying the renamed Wert column whose only
row duplicates an existing business key is a successful no-op under
INSERT_NEW_ONLY (zero rows inserted, no operation error), so the insert
step does not fail for EVERY batch containing such a column. -/
theorem wert_column_no_insert_no_error :
    processUpload .INSERT_NEW_ONLY exampleCsvCols [exampleRow] c9Db
      = .ok 0 0 c9Db := by decide

/-- C9 amended: uploaded columns that are not table columns are kept
through renaming (in particular Wert Ausw.-Zr becomes Wert, not a table
column), so whenever the selected mode actually reaches its insert step
(append with a non-empty cleaned batch, the keyed modes with at least one
fresh row), the batch fails as a whole and is reported as an operation
error leaving the store unchanged; a batch the mode need not insert from
succeeds without error. -/
theorem wert_column_insert_error (mode : UploadMode) (cols : List String)
    (rows : List UploadRow) (db : Db)
    (hW : "Wert" ∈ cols.map renameCol)
    (hreq : requiredColsUpload.filter
        (fun c => !((cols.map renameCol).contains c)) = [])
    (hins : modeAttemptsInsert mode rows db = true) :
    processUpload mode cols rows db = .opError db := by
  have hx : "Wert" ∈ (cols.map renameCol).filter
      (fun c => !(requiredColsUpload.contains c)) :=
    List.mem_filter.mpr ⟨hW, by decide⟩
  have hio : insertOk ((cols.map renameCol).filter
      (fun c => !(requiredColsUpload.contains c))) = false := by
    have hnot : ¬ (insertOk ((cols.map renameCol).filter
        (fun c => !(requiredColsUpload.contains c))) = true) := by
      intro hall
      have hw := (List.all_eq_true.mp hall) "Wert" hx
      simp [tableCols] at hw
    simpa using hnot
  have hmiss : (requiredColsUpload.filter
      (fun c => !((cols.map renameCol).contains c))).isEmpty = true := by
    rw [hreq]
    rfl
  cases mode with
  | APPEND_ALL =>
    have hcl : (cleanRows rows).isEmpty = false := by
      simpa [modeAttemptsInsert] using hins
    simp only [processUpload, runUpload]
    rw [hmiss, hcl, hio]
    simp
  | INSERT_NEW_ONLY =>
    have hfr : (freshRows rows db).isEmpty = false := by
      simpa [modeAttemptsInsert] using hins
    have hcne : cleanRows rows ≠ [] := by
      intro he
      rw [show freshRows rows db = [] from by simp [freshRows, he]] at hfr
      simp at hfr
    simp only [processUpload, runUpload]
    rw [hmiss, isEmpty_false_of_ne_nil hcne, hfr, hio]
    simp
  | UPSERT =>
    have hfr : (freshRows rows db).isEmpty = false := by
      simpa [modeAttemptsInsert] using hins
    have hcne : cleanRows rows ≠ [] := by
      intro he
      rw [show freshRows rows db = [] from by simp [freshRows, he]] at hfr
      simp at hfr
    simp only [processUpload, runUpload]
    rw [hmiss, isEmpty_false_of_ne_nil hcne, hfr, hio]
    simp

/-- Witness for the amended C9: the example template batch (which carries
the Wert column) against the empty store under UPSERT ends in an operation
error with the store unchanged. -/
theorem wert_column_insert_error_witness :
    processUpload .UPSERT exampleCsvCols [exampleRow] emptyDb
      = .opError emptyDb :=
  wert_column_insert_error .UPSERT exampleCsvCols [exampleRow] emptyDb
    (by decide) (by decide) (by decide)

end Einkauf
